import Mathlib

/-!
Shallow embedding of the per-request SQL diagnostic guard from
`flask_sqla_debug/__init__.py` (class `FlaskSqlaDebug`), the CORE subsystem
of the repository.

Modelling conventions:
  * wall-clock times and durations are `ℚ` (Python floats, no rounding issues
    matter to the control flow being verified);
  * the per-request dict `g` becomes the structure `GState`; a key that the
    code may leave absent (`"query_start_time"`) becomes an `Option`;
  * the process-wide fields `last_stack_dump` / `global_stack_dumps` become
    `GlobalState`;
  * a call to `maybe_dump_stack` is recorded as an `MDSCall` holding the call
    site (`DumpReason`), the format string and arguments passed, and the
    outcome (`Emit`): suppressed by the per-request cap, suppressed by the
    global cap, raised as `FlaskSqlaDebugException`, or emitted as a log
    record;
  * Python `%`-formatting with `%s` is `pyFormat`;
  * `log.debug` calls (query echo / completion time) carry no state and are
    not observable by any property below, so they are not recorded.
-/

/-- Configuration values read via `config.get(...)` with their defaults.
Field names drop the `FLASK_SQLA_DEBUG_` prefix of the config keys. -/
structure Config where
  max_query_count : Nat               -- FLASK_SQLA_DEBUG_MAX_QUERY_COUNT, default 10
  max_single_query_seconds : ℚ        -- FLASK_SQLA_DEBUG_MAX_SINGLE_QUERY_SECONDS, default 0.2
  max_total_query_seconds : ℚ         -- FLASK_SQLA_DEBUG_MAX_TOTAL_QUERY_SECONDS, default 0.4
  max_request_debug_stacks : Nat      -- FLASK_SQLA_DEBUG_MAX_REQUEST_DEBUG_STACKS, default 3
  max_global_debug_stacks : Nat       -- FLASK_SQLA_DEBUG_MAX_GLOBAL_DEBUG_STACKS, default 20
  throw_exception_cfg : Bool          -- FLASK_SQLA_DEBUG_THROW_EXCEPTION, default False
  deriving Repr, DecidableEq

/-- The documented defaults. -/
def Config.defaults : Config :=
  { max_query_count := 10
    max_single_query_seconds := 1/5
    max_total_query_seconds := 2/5
    max_request_debug_stacks := 3
    max_global_debug_stacks := 20
    throw_exception_cfg := false }

/-- The per-request dict `g` held on the app context (`_get_g`).
`query_start_time` is `none` while the key `"query_start_time"` is absent
from the dict. `dump_queries` is an `Int` because the code decrements it
without a lower bound. -/
structure GState where
  start_time : ℚ
  throw_exception : Bool
  sql_query_count : Nat
  sql_max_query_count : Nat
  sql_max_single_query_seconds : ℚ
  sql_max_total_query_seconds : ℚ
  sql_total_query_time : ℚ
  sql_total_query_time_exceeded : Bool
  dump_queries : Int
  stack_dump_count : Nat
  stack_dump_request_count : Nat
  query_start_time : Option ℚ
  deriving Repr, DecidableEq

/-- `FlaskSqlaDebug._default_data`: (re)sets the listed keys of `g` from the
config. The key `"query_start_time"` is NOT among the keys it writes, so a
pre-existing value survives a reset and a fresh dict lacks it; the parameter
`qst` is that pre-existing value (`none` for a fresh dict). `now` is the
`time.time()` stored in `"start_time"`. -/
def default_data (cfg : Config) (now : ℚ) (qst : Option ℚ) : GState :=
  { start_time := now
    throw_exception := cfg.throw_exception_cfg
    sql_query_count := 0
    sql_max_query_count := cfg.max_query_count
    sql_max_single_query_seconds := cfg.max_single_query_seconds
    sql_max_total_query_seconds := cfg.max_total_query_seconds
    sql_total_query_time := 0
    sql_total_query_time_exceeded := false
    dump_queries := 0
    stack_dump_count := 0
    stack_dump_request_count := 0
    query_start_time := qst }

/-- Process-wide rate-limiter state set in `FlaskSqlaDebug.__init__`:
`self.last_stack_dump = round(time.time())`, `self.global_stack_dumps = 0`. -/
structure GlobalState where
  last_stack_dump : Int
  global_stack_dumps : Nat
  deriving Repr, DecidableEq

/-- Python `fmt % args` restricted to the `%s` conversions actually used by
the format strings in the source. -/
def pyFormatAux : List Char → List String → List Char
  | [], _ => []
  | '%' :: 's' :: rest, a :: args => a.toList ++ pyFormatAux rest args
  | '%' :: 's' :: rest, [] => '%' :: 's' :: pyFormatAux rest []
  | c :: rest, args => c :: pyFormatAux rest args

def pyFormat (fmt : String) (args : List String) : String :=
  ⟨pyFormatAux fmt.toList args⟩

/-- Substring test (used only in theorem statements about message contents). -/
def strContainsAux (needle : List Char) : List Char → Bool
  | [] => needle.isEmpty
  | c :: cs => needle.isPrefixOf (c :: cs) || strContainsAux needle cs

def strContains (hay needle : String) : Bool :=
  strContainsAux needle.toList hay.toList

/-- Outcome of one `maybe_dump_stack` invocation. -/
inductive Emit where
  | suppressedRequest            -- returned at the per-request cap check
  | suppressedGlobal             -- returned at the global per-second cap check
  | raised (msg : String)        -- raise FlaskSqlaDebugException(msg)
  | logged (msg : String)        -- self.log.error(...) record, fully formatted
  deriving Repr, DecidableEq

/-- Whether the invocation actually emitted a diagnostic (raised or logged). -/
def Emit.emitted : Emit → Bool
  | .suppressedRequest => false
  | .suppressedGlobal => false
  | .raised _ => true
  | .logged _ => true

def Emit.isRaised : Emit → Bool
  | .raised _ => true
  | _ => false

/-- The call site that invoked `maybe_dump_stack`. -/
inductive DumpReason where
  | totalTime        -- _after_cursor_execute, total-time budget check
  | singleQuery      -- _after_cursor_execute, single-query budget check
  | queryCount       -- _after_cursor_execute, query-count budget check
  | unbalancedExit   -- query_dump_stop, negative dump_queries
  deriving Repr, DecidableEq

/-- One recorded invocation of `maybe_dump_stack`. -/
structure MDSCall where
  reason : DumpReason
  fmt : String
  args : List String
  outcome : Emit
  deriving Repr, DecidableEq

/-- `FlaskSqlaDebug.maybe_dump_stack(fmt, *args)` on the in-request path
(`g` present).  Inputs beyond the program state: `curtime` is
`round(time.time())`, `url` is `request.url`, `stackText` the joined
`traceback.format_stack()`.  Returns the updated `g`, the updated global
state and the outcome.

Faithful details: `stack_dump_request_count` is incremented before the
per-request cap check, which compares `stack_dump_count` with `>`;
the global branch never resets `global_stack_dumps`; in the
throw branch the local `s` holding the url line is immediately overwritten
by the formatted message before the raise. -/
def maybe_dump_stack (cfg : Config) (g : GState) (gs : GlobalState)
    (curtime : Int) (url stackText : String)
    (fmt : String) (args : List String) : GState × GlobalState × Emit :=
  let g := { g with stack_dump_request_count := g.stack_dump_request_count + 1 }
  if g.stack_dump_count > cfg.max_request_debug_stacks then
    (g, gs, .suppressedRequest)
  else if curtime = gs.last_stack_dump ∧
      gs.global_stack_dumps > cfg.max_global_debug_stacks then
    (g, gs, .suppressedGlobal)
  else
    let gs : GlobalState :=
      { last_stack_dump := curtime
        global_stack_dumps := gs.global_stack_dumps + 1 }
    let g := { g with stack_dump_count := g.stack_dump_count + 1 }
    if g.throw_exception then
      let _dead := "url: " ++ url ++ "\n"   -- s = "url is " ... , overwritten next line
      let s := pyFormat fmt args
      (g, gs, .raised s)
    else
      (g, gs, .logged (pyFormat ("%s\n" ++ fmt ++ ": stack trace: %s")
        (("url: " ++ url ++ "\n") :: args ++ [stackText])))

/-- `FlaskSqlaDebug._before_cursor_execute` with `g` present: stores the
current time under `"query_start_time"`.  (The `dump_queries > 0` branch only
emits a `log.debug` line.) -/
def before_cursor_execute (g : GState) (now : ℚ) : GState :=
  { g with query_start_time := some now }

/-- Format strings as written in the source.  Note the single-query branch
reuses the total-time wording verbatim. -/
def fmtTotalTime : String :=
  "Total query time exceeded for multiple queries, last query: %s, params %s"

def fmtSingleQuery : String :=
  "Total query time exceeded for multiple queries, last query: %s, params %s"

def fmtQueryCount : String :=
  "Max queries per request exceeded, last query: %s, params: %s"

def fmtUnbalanced : String :=
  "query_dump_stop called unbalanced with query_dump_start"

/-- Result of `_after_cursor_execute`: updated states, the
`maybe_dump_stack` invocations made (in order), and, when one of them
raised, the propagated exception message. -/
structure AfterOut where
  g : GState
  gs : GlobalState
  calls : List MDSCall
  exc : Option String
  deriving Repr, DecidableEq

/-- The exception propagated out of a `maybe_dump_stack` outcome. -/
def excOf : Emit → Option String
  | .raised m => some m
  | _ => none

/-- Shared shape of the three violation branches of
`_after_cursor_execute`: invoke `maybe_dump_stack` (recording the call) and
let a raised `FlaskSqlaDebugException` propagate; `logged = True` there
means no further call follows, so the branch result is final. -/
def dumpStep (cfg : Config) (g : GState) (gs : GlobalState) (curtime : Int)
    (url stackText : String) (r : DumpReason) (fmt : String)
    (args : List String) : Except String AfterOut :=
  let (g, gs, e) := maybe_dump_stack cfg g gs curtime url stackText fmt args
  .ok ⟨g, gs, [⟨r, fmt, args, e⟩], excOf e⟩

/-- `FlaskSqlaDebug._after_cursor_execute` with `g` present.  `now` is
`self.after_cursor_execute_time()`.  Returns `.error` on the `KeyError`
raised by `g["query_start_time"]` when the key is absent.

The three checks run in source order — total-time (guarded by the sticky
`sql_total_query_time_exceeded`), single-query, query-count — each later one
gated on `not logged`, so the first matching branch is the last (its
`dumpStep`). -/
def after_cursor_execute (cfg : Config) (g : GState) (gs : GlobalState)
    (now : ℚ) (curtime : Int)
    (statement parameters url stackText : String) :
    Except String AfterOut :=
  match g.query_start_time with
  | none => .error "KeyError: query_start_time"
  | some qst =>
    let time_taken := now - qst
    let g := { g with sql_query_count := g.sql_query_count + 1 }
    let g := { g with sql_total_query_time := g.sql_total_query_time + time_taken }
    if g.sql_total_query_time > g.sql_max_total_query_seconds ∧
        ¬ g.sql_total_query_time_exceeded then
      let g := { g with sql_total_query_time_exceeded := true }
      dumpStep cfg g gs curtime url stackText .totalTime fmtTotalTime
        [statement, parameters]
    else if g.sql_max_single_query_seconds < time_taken then
      dumpStep cfg g gs curtime url stackText .singleQuery fmtSingleQuery
        [statement, parameters]
    else if g.sql_query_count = g.sql_max_query_count then
      dumpStep cfg g gs curtime url stackText .queryCount fmtQueryCount
        [statement, parameters]
    else
      .ok ⟨g, gs, [], none⟩

/-- `FlaskSqlaDebug.query_dump_start` with `g` present. -/
def query_dump_start (g : GState) : GState :=
  { g with dump_queries := g.dump_queries + 1 }

/-- `FlaskSqlaDebug.query_dump_stop` with `g` present: decrements
`dump_queries` and, when the result is negative, routes an unbalanced-exit
diagnostic through `maybe_dump_stack` (no clamping of the counter). -/
def query_dump_stop (cfg : Config) (g : GState) (gs : GlobalState)
    (curtime : Int) (url stackText : String) :
    GState × GlobalState × List MDSCall :=
  let g := { g with dump_queries := g.dump_queries - 1 }
  if g.dump_queries < 0 then
    let (g, gs, e) := maybe_dump_stack cfg g gs curtime url stackText
      fmtUnbalanced []
    (g, gs, [⟨.unbalancedExit, fmtUnbalanced, [], e⟩])
  else
    (g, gs, [])

/-- One query as seen by the hook pair: `before_cursor_execute` fires at
`startT`, `after_cursor_execute` at `endT` (with `round(time.time())` there
equal to `curtime`). -/
structure Query where
  startT : ℚ
  endT : ℚ
  statement : String
  parameters : String
  curtime : Int
  deriving Repr, DecidableEq

def Query.duration (q : Query) : ℚ := q.endT - q.startT

/-- Run one query through both hooks. -/
def runQuery (cfg : Config) (g : GState) (gs : GlobalState) (q : Query)
    (url stackText : String) : Except String AfterOut :=
  after_cursor_execute cfg (before_cursor_execute g q.startT) gs
    q.endT q.curtime q.statement q.parameters url stackText

/-- Outcome of running a request's sequence of queries.  `perQuery` holds,
for each query that executed, the `maybe_dump_stack` calls it made;
`exc` is the first propagated `FlaskSqlaDebugException` (aborting the
sequence), `keyError` records an aborting `KeyError`. -/
structure RunOut where
  g : GState
  gs : GlobalState
  perQuery : List (List MDSCall)
  exc : Option String
  keyError : Bool
  deriving Repr, DecidableEq

/-- All `maybe_dump_stack` calls of the run, in order. -/
def RunOut.calls (r : RunOut) : List MDSCall := r.perQuery.flatten

/-- Run the queries of a request in order; an exception or `KeyError`
propagating out of a hook aborts the rest of the request. -/
def runQueries (cfg : Config) (url stackText : String) :
    GState → GlobalState → List Query → RunOut
  | g, gs, [] => ⟨g, gs, [], none, false⟩
  | g, gs, q :: rest =>
    match runQuery cfg g gs q url stackText with
    | .error _ => ⟨g, gs, [], none, true⟩
    | .ok o =>
      match o.exc with
      | some m => ⟨o.g, o.gs, [o.calls], some m, false⟩
      | none =>
        let r := runQueries cfg url stackText o.g o.gs rest
        ⟨r.g, r.gs, o.calls :: r.perQuery, r.exc, r.keyError⟩

/-- Repeated direct invocations of `maybe_dump_stack` (same request, same
format/args), at the given coarse seconds, one per list entry; a raise
aborts the remaining calls. -/
def callDumpsAt (cfg : Config) (url stackText fmt : String)
    (args : List String) :
    GState → GlobalState → List Int → GState × GlobalState × List Emit
  | g, gs, [] => (g, gs, [])
  | g, gs, t :: ts =>
    let (g, gs, e) := maybe_dump_stack cfg g gs t url stackText fmt args
    match e with
    | .raised m => (g, gs, [.raised m])
    | _ =>
      let (g2, gs2, es) := callDumpsAt cfg url stackText fmt args g gs ts
      (g2, gs2, e :: es)

/-- Number of emitted (non-suppressed) dumps in a list of outcomes. -/
def emittedCount (es : List Emit) : Nat := (es.filter Emit.emitted).length

/-- The total-time check of `_after_cursor_execute`, phrased on the
pre-query state and the measured duration. -/
def condTotal (g : GState) (dur : ℚ) : Prop :=
  g.sql_total_query_time + dur > g.sql_max_total_query_seconds ∧
    g.sql_total_query_time_exceeded = false

/-- The single-query check: `sql_max_single_query_seconds < time_taken`. -/
def condSingle (g : GState) (dur : ℚ) : Prop :=
  g.sql_max_single_query_seconds < dur

/-- The query-count check: the incremented counter equals the limit. -/
def condCount (g : GState) : Prop :=
  g.sql_query_count + 1 = g.sql_max_query_count

instance (g : GState) (dur : ℚ) : Decidable (condTotal g dur) := by
  unfold condTotal; infer_instance

instance (g : GState) (dur : ℚ) : Decidable (condSingle g dur) := by
  unfold condSingle; infer_instance

instance (g : GState) : Decidable (condCount g) := by
  unfold condCount; infer_instance

/-- The call sites that fire on one query: source order, short-circuited by
the `logged` flag. -/
def firedReasons (g : GState) (dur : ℚ) : List DumpReason :=
  if condTotal g dur then [.totalTime]
  else if condSingle g dur then [.singleQuery]
  else if condCount g then [.queryCount]
  else []

/-- State after the accounting lines of `_after_cursor_execute`
(count incremented, duration added to the running total). -/
def postAccounting (g : GState) (dur : ℚ) : GState :=
  { g with sql_query_count := g.sql_query_count + 1,
           sql_total_query_time := g.sql_total_query_time + dur }

/-- `postAccounting` plus the sticky flag set (total-time branch). -/
def postTotalFlag (g : GState) (dur : ℚ) : GState :=
  { postAccounting g dur with sql_total_query_time_exceeded := true }

/-- Every running total along the durations stays at most `c`, starting
from accumulated time `acc`. -/
def totalsWithin : ℚ → List ℚ → ℚ → Prop
  | _, [], _ => True
  | acc, d :: ds, c => acc + d ≤ c ∧ totalsWithin (acc + d) ds c


/-! ## Helper lemmas about `maybe_dump_stack` -/

theorem mds_throw_eq (cfg : Config) (g : GState) (gs : GlobalState) (t : Int)
    (u s f : String) (a : List String) :
    (maybe_dump_stack cfg g gs t u s f a).1.throw_exception = g.throw_exception := by
  simp only [maybe_dump_stack]; split_ifs <;> simp

theorem mds_count_eq (cfg : Config) (g : GState) (gs : GlobalState) (t : Int)
    (u s f : String) (a : List String) :
    (maybe_dump_stack cfg g gs t u s f a).1.sql_query_count = g.sql_query_count := by
  simp only [maybe_dump_stack]; split_ifs <;> simp

theorem mds_max_count_eq (cfg : Config) (g : GState) (gs : GlobalState) (t : Int)
    (u s f : String) (a : List String) :
    (maybe_dump_stack cfg g gs t u s f a).1.sql_max_query_count = g.sql_max_query_count := by
  simp only [maybe_dump_stack]; split_ifs <;> simp

theorem mds_max_single_eq (cfg : Config) (g : GState) (gs : GlobalState) (t : Int)
    (u s f : String) (a : List String) :
    (maybe_dump_stack cfg g gs t u s f a).1.sql_max_single_query_seconds =
      g.sql_max_single_query_seconds := by
  simp only [maybe_dump_stack]; split_ifs <;> simp

theorem mds_max_total_eq (cfg : Config) (g : GState) (gs : GlobalState) (t : Int)
    (u s f : String) (a : List String) :
    (maybe_dump_stack cfg g gs t u s f a).1.sql_max_total_query_seconds =
      g.sql_max_total_query_seconds := by
  simp only [maybe_dump_stack]; split_ifs <;> simp

theorem mds_total_eq (cfg : Config) (g : GState) (gs : GlobalState) (t : Int)
    (u s f : String) (a : List String) :
    (maybe_dump_stack cfg g gs t u s f a).1.sql_total_query_time =
      g.sql_total_query_time := by
  simp only [maybe_dump_stack]; split_ifs <;> simp

theorem mds_exceeded_eq (cfg : Config) (g : GState) (gs : GlobalState) (t : Int)
    (u s f : String) (a : List String) :
    (maybe_dump_stack cfg g gs t u s f a).1.sql_total_query_time_exceeded =
      g.sql_total_query_time_exceeded := by
  simp only [maybe_dump_stack]; split_ifs <;> simp

theorem mds_dump_queries_eq (cfg : Config) (g : GState) (gs : GlobalState) (t : Int)
    (u s f : String) (a : List String) :
    (maybe_dump_stack cfg g gs t u s f a).1.dump_queries = g.dump_queries := by
  simp only [maybe_dump_stack]; split_ifs <;> simp

theorem mds_qst_eq (cfg : Config) (g : GState) (gs : GlobalState) (t : Int)
    (u s f : String) (a : List String) :
    (maybe_dump_stack cfg g gs t u s f a).1.query_start_time = g.query_start_time := by
  simp only [maybe_dump_stack]; split_ifs <;> simp

theorem mds_request_count_eq (cfg : Config) (g : GState) (gs : GlobalState) (t : Int)
    (u s f : String) (a : List String) :
    (maybe_dump_stack cfg g gs t u s f a).1.stack_dump_request_count =
      g.stack_dump_request_count + 1 := by
  simp only [maybe_dump_stack]; split_ifs <;> simp

theorem mds_not_raised (cfg : Config) (g : GState) (gs : GlobalState) (t : Int)
    (u s f : String) (a : List String) (hthrow : g.throw_exception = false) :
    (maybe_dump_stack cfg g gs t u s f a).2.2.isRaised = false := by
  simp only [maybe_dump_stack]; split_ifs <;> simp_all [Emit.isRaised]

theorem excOf_of_not_raised {e : Emit} (h : e.isRaised = false) : excOf e = none := by
  cases e <;> simp_all [Emit.isRaised, excOf]

theorem excOf_isSome {e : Emit} : (excOf e).isSome = e.isRaised := by
  cases e <;> simp [Emit.isRaised, excOf]

/-! ## Bridge equations for `after_cursor_execute` -/

theorem dumpStep_eq (cfg : Config) (g : GState) (gs : GlobalState) (t : Int)
    (u s : String) (r : DumpReason) (f : String) (a : List String) :
    dumpStep cfg g gs t u s r f a =
      .ok ⟨(maybe_dump_stack cfg g gs t u s f a).1,
           (maybe_dump_stack cfg g gs t u s f a).2.1,
           [⟨r, f, a, (maybe_dump_stack cfg g gs t u s f a).2.2⟩],
           excOf (maybe_dump_stack cfg g gs t u s f a).2.2⟩ := by
  rcases h : maybe_dump_stack cfg g gs t u s f a with ⟨g1, gs1, e⟩
  simp [dumpStep, h]

theorem after_eq_total (cfg : Config) (g : GState) (gs : GlobalState)
    (now : ℚ) (curtime : Int) (stmt params url st : String) (qst : ℚ)
    (h : g.query_start_time = some qst) (hc : condTotal g (now - qst)) :
    after_cursor_execute cfg g gs now curtime stmt params url st =
      dumpStep cfg (postTotalFlag g (now - qst)) gs curtime url st
        .totalTime fmtTotalTime [stmt, params] := by
  obtain ⟨h1, h2⟩ := hc
  simp only [after_cursor_execute, h]
  rw [if_pos ⟨h1, by simp [h2]⟩]
  simp [postTotalFlag, postAccounting, h]

theorem after_eq_single (cfg : Config) (g : GState) (gs : GlobalState)
    (now : ℚ) (curtime : Int) (stmt params url st : String) (qst : ℚ)
    (h : g.query_start_time = some qst) (hnc : ¬ condTotal g (now - qst))
    (hc : condSingle g (now - qst)) :
    after_cursor_execute cfg g gs now curtime stmt params url st =
      dumpStep cfg (postAccounting g (now - qst)) gs curtime url st
        .singleQuery fmtSingleQuery [stmt, params] := by
  simp only [after_cursor_execute, h]
  split_ifs with h1 h2 h3
  · exact absurd ⟨h1.1, by simpa using h1.2⟩ hnc
  · simp [postAccounting, h]
  · exact absurd hc h2
  · exact absurd hc h2

theorem after_eq_count (cfg : Config) (g : GState) (gs : GlobalState)
    (now : ℚ) (curtime : Int) (stmt params url st : String) (qst : ℚ)
    (h : g.query_start_time = some qst) (hnc : ¬ condTotal g (now - qst))
    (hns : ¬ condSingle g (now - qst)) (hc : condCount g) :
    after_cursor_execute cfg g gs now curtime stmt params url st =
      dumpStep cfg (postAccounting g (now - qst)) gs curtime url st
        .queryCount fmtQueryCount [stmt, params] := by
  simp only [after_cursor_execute, h]
  split_ifs with h1 h2 h3
  · exact absurd ⟨h1.1, by simpa using h1.2⟩ hnc
  · exact absurd h2 hns
  · simp [postAccounting, h]
  · exact absurd hc h3

theorem after_eq_none (cfg : Config) (g : GState) (gs : GlobalState)
    (now : ℚ) (curtime : Int) (stmt params url st : String) (qst : ℚ)
    (h : g.query_start_time = some qst) (hnc : ¬ condTotal g (now - qst))
    (hns : ¬ condSingle g (now - qst)) (hncc : ¬ condCount g) :
    after_cursor_execute cfg g gs now curtime stmt params url st =
      .ok ⟨postAccounting g (now - qst), gs, [], none⟩ := by
  simp only [after_cursor_execute, h]
  split_ifs with h1 h2 h3
  · exact absurd ⟨h1.1, by simpa using h1.2⟩ hnc
  · exact absurd h2 hns
  · exact absurd h3 hncc
  · simp [postAccounting, h]

/-- Master characterisation of one `_after_cursor_execute` step when the
`"query_start_time"` key is present: it succeeds, does its accounting, sets
the sticky flag exactly when the total-time condition holds, and invokes
`maybe_dump_stack` for precisely the first matching check. -/
theorem after_spec (cfg : Config) (g : GState) (gs : GlobalState)
    (now : ℚ) (curtime : Int) (stmt params url st : String) (qst : ℚ)
    (h : g.query_start_time = some qst) :
    ∃ o : AfterOut,
      after_cursor_execute cfg g gs now curtime stmt params url st = .ok o ∧
      o.g.sql_query_count = g.sql_query_count + 1 ∧
      o.g.sql_max_query_count = g.sql_max_query_count ∧
      o.g.sql_max_single_query_seconds = g.sql_max_single_query_seconds ∧
      o.g.sql_max_total_query_seconds = g.sql_max_total_query_seconds ∧
      o.g.sql_total_query_time = g.sql_total_query_time + (now - qst) ∧
      o.g.throw_exception = g.throw_exception ∧
      (o.g.sql_total_query_time_exceeded = true ↔
        (g.sql_total_query_time_exceeded = true ∨ condTotal g (now - qst))) ∧
      o.calls.map MDSCall.reason = firedReasons g (now - qst) ∧
      (o.exc.isSome = true → ∃ c ∈ o.calls, c.outcome.isRaised = true) ∧
      (g.throw_exception = false → o.exc = none) := by
  by_cases h1 : condTotal g (now - qst)
  · rw [after_eq_total cfg g gs now curtime stmt params url st qst h h1, dumpStep_eq]
    refine ⟨_, rfl, ?_⟩
    simp [mds_count_eq, mds_max_count_eq, mds_max_single_eq, mds_max_total_eq,
      mds_total_eq, mds_exceeded_eq, mds_throw_eq, postTotalFlag, postAccounting,
      firedReasons, h1, excOf_isSome]
    intro hth
    exact excOf_of_not_raised (mds_not_raised cfg (postTotalFlag g (now - qst)) gs
      curtime url st fmtTotalTime [stmt, params]
      (by simp [postTotalFlag, postAccounting, hth]))
  · by_cases h2 : condSingle g (now - qst)
    · rw [after_eq_single cfg g gs now curtime stmt params url st qst h h1 h2, dumpStep_eq]
      refine ⟨_, rfl, ?_⟩
      simp [mds_count_eq, mds_max_count_eq, mds_max_single_eq, mds_max_total_eq,
        mds_total_eq, mds_exceeded_eq, mds_throw_eq, postAccounting,
        firedReasons, h1, h2, excOf_isSome]
      intro hth
      exact excOf_of_not_raised (mds_not_raised cfg (postAccounting g (now - qst)) gs
        curtime url st fmtSingleQuery [stmt, params] (by simp [postAccounting, hth]))
    · by_cases h3 : condCount g
      · rw [after_eq_count cfg g gs now curtime stmt params url st qst h h1 h2 h3, dumpStep_eq]
        refine ⟨_, rfl, ?_⟩
        simp [mds_count_eq, mds_max_count_eq, mds_max_single_eq, mds_max_total_eq,
          mds_total_eq, mds_exceeded_eq, mds_throw_eq, postAccounting,
          firedReasons, h1, h2, h3, excOf_isSome]
        intro hth
        exact excOf_of_not_raised (mds_not_raised cfg (postAccounting g (now - qst)) gs
          curtime url st fmtQueryCount [stmt, params] (by simp [postAccounting, hth]))
      · rw [after_eq_none cfg g gs now curtime stmt params url st qst h h1 h2 h3]
        refine ⟨_, rfl, ?_⟩
        simp [postAccounting, firedReasons, h1, h2, h3]

/-! ## Sequence lemmas -/

/-- If throughout a run the query count stays strictly below the limit,
every duration is within the single-query budget and every running total is
within the total budget, no `maybe_dump_stack` call is made. -/
theorem run_no_calls (cfg : Config) (url st : String) (qs : List Query) :
    ∀ (g : GState) (gs : GlobalState),
      g.sql_query_count + qs.length < g.sql_max_query_count →
      (∀ q ∈ qs, q.duration ≤ g.sql_max_single_query_seconds) →
      totalsWithin g.sql_total_query_time (qs.map Query.duration)
        g.sql_max_total_query_seconds →
      (runQueries cfg url st g gs qs).calls = [] := by
  induction qs with
  | nil => intro g gs _ _ _; rfl
  | cons q rest ih =>
    intro g gs hcount hsingle htotal
    obtain ⟨o, ho, hc1, hc2, hc3, hc4, hc5, hc6, hc7, hreasons, hexc1, hexc2⟩ :=
      after_spec cfg (before_cursor_execute g q.startT) gs q.endT q.curtime
        q.statement q.parameters url st q.startT rfl
    simp only [before_cursor_execute] at hc1 hc2 hc3 hc4 hc5 hc6
    obtain ⟨htot1, htot2⟩ := htotal
    have hnc : ¬ condTotal (before_cursor_execute g q.startT) (q.endT - q.startT) := by
      simp only [condTotal, before_cursor_execute]
      intro hcon
      exact absurd htot1 (by simpa [Query.duration] using not_le_of_lt hcon.1)
    have hns : ¬ condSingle (before_cursor_execute g q.startT) (q.endT - q.startT) := by
      simp only [condSingle, before_cursor_execute]
      exact not_lt_of_le (by simpa [Query.duration] using hsingle q (by simp))
    have hncc : ¬ condCount (before_cursor_execute g q.startT) := by
      simp only [condCount, before_cursor_execute]
      simp only [List.length_cons] at hcount
      omega
    have hcalls : o.calls = [] := by
      have := hreasons
      rw [firedReasons, if_neg hnc, if_neg hns, if_neg hncc] at this
      exact List.map_eq_nil_iff.mp this
    have hexc : o.exc = none := by
      cases he : o.exc with
      | none => rfl
      | some m =>
        obtain ⟨c, hcmem, _⟩ := hexc1 (by simp [he])
        simp [hcalls] at hcmem
    have hrest : (runQueries cfg url st o.g o.gs rest).calls = [] := by
      apply ih
      · rw [hc1, hc2]; simp only [List.length_cons] at hcount; omega
      · intro p hp; rw [hc3]; exact hsingle p (by simp [hp])
      · rw [hc4, hc5]; simpa [Query.duration] using htot2
    simp only [runQueries, runQuery, ho, hexc, RunOut.calls] at *
    simp [hcalls, hrest, RunOut.calls]

/-! ## Claims -/

/-- C1: For every request in which the number of completed queries stays
strictly below `sql_max_query_count`, every single query duration is at most
`sql_max_single_query_seconds`, and the accumulated total query time stays
at most `sql_max_total_query_seconds`, `_after_cursor_execute` never calls
`maybe_dump_stack`, so zero diagnostic dumps are emitted for that request. -/
theorem C1_no_dumps (cfg : Config) (t0 : ℚ) (gs : GlobalState)
    (url st : String) (qs : List Query)
    (hcount : qs.length < cfg.max_query_count)
    (hsingle : ∀ q ∈ qs, q.duration ≤ cfg.max_single_query_seconds)
    (htotal : totalsWithin 0 (qs.map Query.duration) cfg.max_total_query_seconds) :
    (runQueries cfg url st (default_data cfg t0 none) gs qs).calls = [] := by
  apply run_no_calls
  · simpa [default_data] using hcount
  · simpa [default_data] using hsingle
  · simpa [default_data] using htotal

/-- Witness for C1 at a concrete input: two fast queries under the default
configuration make no dump call. -/
theorem C1_no_dumps_witness :
    2 < Config.defaults.max_query_count ∧
    totalsWithin 0 ([⟨0, 1/10, "SELECT 1", "()", 100⟩,
      ⟨1/10, 1/5, "SELECT 2", "()", 100⟩].map Query.duration)
      Config.defaults.max_total_query_seconds ∧
    (runQueries Config.defaults "http://h/" "TB"
      (default_data Config.defaults 0 none) ⟨50, 0⟩
      [⟨0, 1/10, "SELECT 1", "()", 100⟩,
       ⟨1/10, 1/5, "SELECT 2", "()", 100⟩]).calls = [] :=
  ⟨by norm_num [Config.defaults],
   by norm_num [totalsWithin, Query.duration, Config.defaults],
   C1_no_dumps Config.defaults 0 ⟨50, 0⟩ "http://h/" "TB" _
     (by norm_num [Config.defaults])
     (by intro q hq
         simp only [List.mem_cons, List.mem_singleton] at hq
         rcases hq with rfl | rfl | h
         · norm_num [Query.duration, Config.defaults]
         · norm_num [Query.duration, Config.defaults]
         · simp at h)
     (by norm_num [totalsWithin, Query.duration, Config.defaults])⟩

/-- C2: For every completed query, the three threshold checks in
`_after_cursor_execute` are evaluated in the fixed order total-time, then
single-query, then query-count, short-circuiting after the first check that
triggers a dump, so at most one `maybe_dump_stack` call is made per
completed query even when several thresholds are crossed at once. -/
theorem C2_priority_order (cfg : Config) (g : GState) (gs : GlobalState)
    (now : ℚ) (curtime : Int) (stmt params url st : String) (qst : ℚ)
    (h : g.query_start_time = some qst) :
    ∃ o : AfterOut,
      after_cursor_execute cfg g gs now curtime stmt params url st = .ok o ∧
      o.calls.map MDSCall.reason =
        (if condTotal g (now - qst) then [DumpReason.totalTime]
         else if condSingle g (now - qst) then [DumpReason.singleQuery]
         else if condCount g then [DumpReason.queryCount]
         else []) ∧
      o.calls.length ≤ 1 := by
  obtain ⟨o, ho, _, _, _, _, _, _, _, hreasons, _, _⟩ :=
    after_spec cfg g gs now curtime stmt params url st qst h
  refine ⟨o, ho, by simpa [firedReasons] using hreasons, ?_⟩
  have hlen : o.calls.length = (firedReasons g (now - qst)).length := by
    rw [← hreasons, List.length_map]
  rw [hlen, firedReasons]
  split_ifs <;> simp

/-- Witness for C2 at a concrete input crossing all three thresholds at
once (limit-1 queries, zero total budget, tiny single budget): only the
total-time dump fires. -/
theorem C2_priority_order_witness :
    ∃ o : AfterOut,
      after_cursor_execute ⟨1, 1/5, 0, 3, 20, false⟩
        (before_cursor_execute (default_data ⟨1, 1/5, 0, 3, 20, false⟩ 0 none) 0)
        ⟨50, 0⟩ 1 100 "S" "P" "u" "st" = .ok o ∧
      o.calls.map MDSCall.reason =
        (if condTotal (before_cursor_execute
            (default_data ⟨1, 1/5, 0, 3, 20, false⟩ 0 none) 0) (1 - 0) then
          [DumpReason.totalTime]
         else if condSingle (before_cursor_execute
            (default_data ⟨1, 1/5, 0, 3, 20, false⟩ 0 none) 0) (1 - 0) then
          [DumpReason.singleQuery]
         else if condCount (before_cursor_execute
            (default_data ⟨1, 1/5, 0, 3, 20, false⟩ 0 none) 0) then
          [DumpReason.queryCount]
         else []) ∧
      o.calls.length ≤ 1 :=
  C2_priority_order ⟨1, 1/5, 0, 3, 20, false⟩
    (before_cursor_execute (default_data ⟨1, 1/5, 0, 3, 20, false⟩ 0 none) 0)
    ⟨50, 0⟩ 1 100 "S" "P" "u" "st" 0 rfl

/-- Number of `maybe_dump_stack` calls with a given call site in a list. -/
def countReason (r : DumpReason) (cs : List MDSCall) : Nat :=
  cs.countP (fun c => decide (c.reason = r))

theorem countReason_of_map {cs : List MDSCall} {rs : List DumpReason}
    (h : cs.map MDSCall.reason = rs) (r : DumpReason) :
    countReason r cs = rs.countP (fun x => decide (x = r)) := by
  rw [← h, countReason, List.countP_map]
  rfl

theorem countReason_append (r : DumpReason) (cs ds : List MDSCall) :
    countReason r (cs ++ ds) = countReason r cs + countReason r ds :=
  List.countP_append _ _ _

/-- Once the sticky flag is set, the rest of the request makes no total-time
dump call and never clears the flag. -/
theorem run_exceeded_sticky (cfg : Config) (url st : String) (qs : List Query) :
    ∀ (g : GState) (gs : GlobalState),
      g.sql_total_query_time_exceeded = true →
      (runQueries cfg url st g gs qs).g.sql_total_query_time_exceeded = true ∧
      countReason .totalTime (runQueries cfg url st g gs qs).calls = 0 := by
  induction qs with
  | nil => intro g gs hex; exact ⟨hex, rfl⟩
  | cons q rest ih =>
    intro g gs hex
    obtain ⟨o, ho, hc1, hc2, hc3, hc4, hc5, hc6, hc7, hreasons, hexc1, hexc2⟩ :=
      after_spec cfg (before_cursor_execute g q.startT) gs q.endT q.curtime
        q.statement q.parameters url st q.startT rfl
    have hoex : o.g.sql_total_query_time_exceeded = true := hc7.mpr (.inl hex)
    have hnc : ¬ condTotal (before_cursor_execute g q.startT) (q.endT - q.startT) := by
      simp [condTotal, before_cursor_execute, hex]
    have hcount0 : countReason .totalTime o.calls = 0 := by
      rw [countReason_of_map hreasons, firedReasons, if_neg hnc]
      split_ifs <;> simp
    cases hE : o.exc with
    | some m =>
      simp only [runQueries, runQuery, ho, hE, RunOut.calls]
      exact ⟨hoex, by simpa [RunOut.calls] using hcount0⟩
    | none =>
      obtain ⟨ih1, ih2⟩ := ih o.g o.gs hoex
      simp only [runQueries, runQuery, ho, hE, RunOut.calls]
      refine ⟨ih1, ?_⟩
      simp only [List.flatten_cons, countReason_append]
      rw [hcount0]
      simpa [RunOut.calls] using ih2

/-- At most one total-time dump call over any run. -/
theorem run_total_le_one (cfg : Config) (url st : String) (qs : List Query) :
    ∀ (g : GState) (gs : GlobalState),
      countReason .totalTime (runQueries cfg url st g gs qs).calls ≤ 1 := by
  induction qs with
  | nil => intro g gs; simp [runQueries, RunOut.calls, countReason]
  | cons q rest ih =>
    intro g gs
    obtain ⟨o, ho, hc1, hc2, hc3, hc4, hc5, hc6, hc7, hreasons, hexc1, hexc2⟩ :=
      after_spec cfg (before_cursor_execute g q.startT) gs q.endT q.curtime
        q.statement q.parameters url st q.startT rfl
    by_cases hct : condTotal (before_cursor_execute g q.startT) (q.endT - q.startT)
    · have hcount1 : countReason .totalTime o.calls = 1 := by
        rw [countReason_of_map hreasons, firedReasons, if_pos hct]; rfl
      have hoex : o.g.sql_total_query_time_exceeded = true := hc7.mpr (.inr hct)
      cases hE : o.exc with
      | some m =>
        simp only [runQueries, runQuery, ho, hE, RunOut.calls]
        simpa [RunOut.calls] using Nat.le_of_eq hcount1
      | none =>
        obtain ⟨_, hrest0⟩ := run_exceeded_sticky cfg url st rest o.g o.gs hoex
        simp only [runQueries, runQuery, ho, hE, RunOut.calls, List.flatten_cons,
          countReason_append]
        rw [hcount1]
        simpa [RunOut.calls] using Nat.le_of_eq hrest0
    · have hcount0 : countReason .totalTime o.calls = 0 := by
        rw [countReason_of_map hreasons, firedReasons, if_neg hct]
        split_ifs <;> simp
      cases hE : o.exc with
      | some m =>
        simp only [runQueries, runQuery, ho, hE, RunOut.calls]
        simpa [RunOut.calls] using le_trans hcount0.le (Nat.zero_le 1)
      | none =>
        simp only [runQueries, runQuery, ho, hE, RunOut.calls, List.flatten_cons,
          countReason_append]
        rw [hcount0]
        simpa [RunOut.calls] using ih o.g o.gs

/-- C3: Within one request scope, `sql_total_query_time_exceeded` goes from
false to true at most once and is never reset before the request ends, so
the total-time-budget dump is triggered at most once per request however far
`sql_total_query_time` grows past the budget. -/
theorem C3_sticky_once (cfg : Config) (t0 : ℚ) (gs : GlobalState)
    (url st : String) (qs : List Query) :
    countReason .totalTime
      (runQueries cfg url st (default_data cfg t0 none) gs qs).calls ≤ 1 ∧
    ∀ (g : GState) (gs2 : GlobalState) (qs2 : List Query),
      g.sql_total_query_time_exceeded = true →
      (runQueries cfg url st g gs2 qs2).g.sql_total_query_time_exceeded = true ∧
      countReason .totalTime (runQueries cfg url st g gs2 qs2).calls = 0 :=
  ⟨run_total_le_one cfg url st qs _ gs,
   fun g gs2 qs2 hex => run_exceeded_sticky cfg url st qs2 g gs2 hex⟩

/-- Witness for C3: a request whose first query blows the total budget,
and a state with the flag already set running one more query. -/
theorem C3_sticky_once_witness :
    countReason .totalTime
      (runQueries Config.defaults "u" "tb"
        (default_data Config.defaults 0 none) ⟨50, 0⟩
        [⟨0, 1, "A", "()", 100⟩, ⟨1, 2, "B", "()", 100⟩]).calls ≤ 1 ∧
    (runQueries Config.defaults "u" "tb"
      { default_data Config.defaults 0 none with
          sql_total_query_time_exceeded := true } ⟨50, 0⟩
      [⟨0, 1, "A", "()", 100⟩]).g.sql_total_query_time_exceeded = true ∧
    countReason .totalTime
      (runQueries Config.defaults "u" "tb"
        { default_data Config.defaults 0 none with
            sql_total_query_time_exceeded := true } ⟨50, 0⟩
        [⟨0, 1, "A", "()", 100⟩]).calls = 0 :=
  ⟨(C3_sticky_once Config.defaults 0 ⟨50, 0⟩ "u" "tb"
      [⟨0, 1, "A", "()", 100⟩, ⟨1, 2, "B", "()", 100⟩]).1,
   (C3_sticky_once Config.defaults 0 ⟨50, 0⟩ "u" "tb" []).2
     { default_data Config.defaults 0 none with
         sql_total_query_time_exceeded := true } ⟨50, 0⟩
     [⟨0, 1, "A", "()", 100⟩] rfl⟩

/-- Once the query counter has reached (or passed) the limit, the rest of
the request makes no query-count dump call: the check uses equality and the
counter only grows. -/
theorem run_count_done (cfg : Config) (url st : String) (qs : List Query) :
    ∀ (g : GState) (gs : GlobalState),
      g.sql_max_query_count ≤ g.sql_query_count →
      countReason .queryCount (runQueries cfg url st g gs qs).calls = 0 := by
  induction qs with
  | nil => intro g gs _; rfl
  | cons q rest ih =>
    intro g gs hge
    obtain ⟨o, ho, hc1, hc2, hc3, hc4, hc5, hc6, hc7, hreasons, hexc1, hexc2⟩ :=
      after_spec cfg (before_cursor_execute g q.startT) gs q.endT q.curtime
        q.statement q.parameters url st q.startT rfl
    simp only [before_cursor_execute] at hc1 hc2
    have hncc : ¬ condCount (before_cursor_execute g q.startT) := by
      simp only [condCount, before_cursor_execute]
      omega
    have hcount0 : countReason .queryCount o.calls = 0 := by
      rw [countReason_of_map hreasons, firedReasons]
      split_ifs <;> simp_all
    cases hE : o.exc with
    | some m =>
      simp only [runQueries, runQuery, ho, hE, RunOut.calls]
      simpa [RunOut.calls] using hcount0
    | none =>
      have hrest := ih o.g o.gs (by omega)
      simp only [runQueries, runQuery, ho, hE, RunOut.calls, List.flatten_cons,
        countReason_append]
      rw [hcount0]
      simpa [RunOut.calls] using hrest

/-- At most one query-count dump call over any run. -/
theorem run_count_le_one (cfg : Config) (url st : String) (qs : List Query) :
    ∀ (g : GState) (gs : GlobalState),
      countReason .queryCount (runQueries cfg url st g gs qs).calls ≤ 1 := by
  induction qs with
  | nil => intro g gs; simp [runQueries, RunOut.calls, countReason]
  | cons q rest ih =>
    intro g gs
    obtain ⟨o, ho, hc1, hc2, hc3, hc4, hc5, hc6, hc7, hreasons, hexc1, hexc2⟩ :=
      after_spec cfg (before_cursor_execute g q.startT) gs q.endT q.curtime
        q.statement q.parameters url st q.startT rfl
    simp only [before_cursor_execute] at hc1 hc2
    have hle : countReason .queryCount o.calls ≤ 1 := by
      rw [countReason_of_map hreasons, firedReasons]
      split_ifs <;> simp
    by_cases hcc : condCount (before_cursor_execute g q.startT)
    · have hm : g.sql_query_count + 1 = g.sql_max_query_count := hcc
      cases hE : o.exc with
      | some m =>
        simp only [runQueries, runQuery, ho, hE, RunOut.calls]
        simpa [RunOut.calls] using hle
      | none =>
        have hrest0 : countReason .queryCount
            (runQueries cfg url st o.g o.gs rest).calls = 0 :=
          run_count_done cfg url st rest o.g o.gs (by omega)
        simp only [RunOut.calls] at hrest0
        simp only [runQueries, runQuery, ho, hE, RunOut.calls, List.flatten_cons,
          countReason_append]
        omega
    · have hcount0 : countReason .queryCount o.calls = 0 := by
        rw [countReason_of_map hreasons, firedReasons]
        split_ifs <;> simp_all
      cases hE : o.exc with
      | some m =>
        simp only [runQueries, runQuery, ho, hE, RunOut.calls]
        simpa [RunOut.calls] using le_trans hcount0.le (Nat.zero_le 1)
      | none =>
        simp only [runQueries, runQuery, ho, hE, RunOut.calls, List.flatten_cons,
          countReason_append]
        rw [hcount0]
        simpa [RunOut.calls] using ih o.g o.gs

/-- The query-count dump fires on a query iff the incremented counter equals
the limit and neither of the two earlier checks fired on that query. -/
theorem reasons_entry_iff (g : GState) (d : ℚ) (cs : List MDSCall)
    (h : cs.map MDSCall.reason = firedReasons g d) :
    (∃ c ∈ cs, c.reason = DumpReason.queryCount) ↔
      (condCount g ∧ ∀ c ∈ cs,
        c.reason ≠ DumpReason.totalTime ∧ c.reason ≠ DumpReason.singleQuery) := by
  have hmem : (∃ c ∈ cs, c.reason = DumpReason.queryCount) ↔
      DumpReason.queryCount ∈ firedReasons g d := by
    rw [← h]; exact List.mem_map.symm
  have hall : (∀ c ∈ cs, c.reason ≠ DumpReason.totalTime ∧
      c.reason ≠ DumpReason.singleQuery) ↔
      (∀ r ∈ firedReasons g d,
        r ≠ DumpReason.totalTime ∧ r ≠ DumpReason.singleQuery) := by
    rw [← h]
    constructor
    · intro ha r hr
      obtain ⟨c, hcm, rfl⟩ := List.mem_map.mp hr
      exact ha c hcm
    · intro ha c hc
      exact ha c.reason (List.mem_map.mpr ⟨c, hc, rfl⟩)
  rw [hmem, hall, firedReasons]
  split_ifs with h1 h2 h3 <;> simp_all

/-- Per-query characterisation of the query-count dump over a run: it fires
on the `i`-th executed query exactly when that query brings the counter to
the limit and neither the total-time nor the single-query check fired on
that same query. -/
theorem run_count_entry (cfg : Config) (url st : String) (qs : List Query) :
    ∀ (g : GState) (gs : GlobalState) (i : Nat),
      i < (runQueries cfg url st g gs qs).perQuery.length →
      ((∃ c ∈ (runQueries cfg url st g gs qs).perQuery.getD i [],
          c.reason = DumpReason.queryCount) ↔
        (g.sql_query_count + i + 1 = g.sql_max_query_count ∧
         ∀ c ∈ (runQueries cfg url st g gs qs).perQuery.getD i [],
           c.reason ≠ DumpReason.totalTime ∧ c.reason ≠ DumpReason.singleQuery)) := by
  induction qs with
  | nil => intro g gs i hi; simp [runQueries] at hi
  | cons q rest ih =>
    intro g gs i hi
    obtain ⟨o, ho, hc1, hc2, hc3, hc4, hc5, hc6, hc7, hreasons, hexc1, hexc2⟩ :=
      after_spec cfg (before_cursor_execute g q.startT) gs q.endT q.curtime
        q.statement q.parameters url st q.startT rfl
    simp only [before_cursor_execute] at hc1 hc2
    have hhead := reasons_entry_iff (before_cursor_execute g q.startT)
      (q.endT - q.startT) o.calls hreasons
    have hcciff : condCount (before_cursor_execute g q.startT) ↔
        g.sql_query_count + 0 + 1 = g.sql_max_query_count := by
      simp [condCount, before_cursor_execute]
    cases hE : o.exc with
    | some m =>
      simp only [runQueries, runQuery, ho, hE] at hi ⊢
      simp only [List.length_singleton] at hi
      cases i with
      | zero => simpa using hhead.trans (and_congr_left_iff.mpr (fun _ => hcciff))
      | succ j => omega
    | none =>
      simp only [runQueries, runQuery, ho, hE] at hi ⊢
      cases i with
      | zero =>
        simpa using hhead.trans (and_congr_left_iff.mpr (fun _ => hcciff))
      | succ j =>
        have hj : j < (runQueries cfg url st o.g o.gs rest).perQuery.length := by
          simpa using hi
        have hIH := ih o.g o.gs j hj
        rw [hc1, hc2] at hIH
        have harith : (g.sql_query_count + 1 + j + 1 = g.sql_max_query_count) ↔
            (g.sql_query_count + (j + 1) + 1 = g.sql_max_query_count) := by
          omega
        rw [harith] at hIH
        simpa using hIH

/-- C4 counterexample: a request whose single query both blows the total
budget and brings the counter to the limit.  The counter reaches
`sql_max_query_count`, yet no query-count dump is ever triggered for the
request — the `logged` short-circuit swallowed it — refuting "triggered
exactly once ... at which sql_query_count first equals sql_max_query_count". -/
theorem C4_counterexample :
    countReason .queryCount
      (runQueries ⟨1, 10, 0, 3, 20, false⟩ "u" "tb"
        (default_data ⟨1, 10, 0, 3, 20, false⟩ 0 none) ⟨50, 0⟩
        [⟨0, 1, "SELECT slow", "()", 100⟩]).calls = 0 ∧
    (runQueries ⟨1, 10, 0, 3, 20, false⟩ "u" "tb"
      (default_data ⟨1, 10, 0, 3, 20, false⟩ 0 none) ⟨50, 0⟩
      [⟨0, 1, "SELECT slow", "()", 100⟩]).g.sql_query_count =
      (⟨1, 10, 0, 3, 20, false⟩ : Config).max_query_count := by
  constructor
  · norm_num [runQueries, runQuery, after_cursor_execute, before_cursor_execute,
      maybe_dump_stack, dumpStep, default_data, RunOut.calls, countReason, excOf]
    decide
  · norm_num [runQueries, runQuery, after_cursor_execute, before_cursor_execute,
      maybe_dump_stack, dumpStep, default_data, RunOut.calls, countReason, excOf]

/-- C4 (amended): for every request, the query-count violation dump is
triggered at most once, and it is triggered on the i-th completed query
exactly when that query is the one at which `sql_query_count` first equals
`sql_max_query_count` AND neither the total-time nor the single-query check
fired on that same query (when one of them fires there, the count dump is
skipped for good). -/
theorem C4_count_once (cfg : Config) (t0 : ℚ) (gs : GlobalState)
    (url st : String) (qs : List Query) :
    countReason .queryCount
      (runQueries cfg url st (default_data cfg t0 none) gs qs).calls ≤ 1 ∧
    ∀ i : Nat,
      i < (runQueries cfg url st (default_data cfg t0 none) gs qs).perQuery.length →
      ((∃ c ∈ (runQueries cfg url st (default_data cfg t0 none) gs
            qs).perQuery.getD i [], c.reason = DumpReason.queryCount) ↔
        (i + 1 = cfg.max_query_count ∧
         ∀ c ∈ (runQueries cfg url st (default_data cfg t0 none) gs
            qs).perQuery.getD i [],
           c.reason ≠ DumpReason.totalTime ∧
           c.reason ≠ DumpReason.singleQuery)) := by
  refine ⟨run_count_le_one cfg url st qs _ gs, fun i hi => ?_⟩
  have h := run_count_entry cfg url st qs (default_data cfg t0 none) gs i hi
  simpa [default_data] using h

/-- Witness for the amended C4: limit 2, three fast queries; the entry
characterisation is instantiated on the second query (i = 1). -/
theorem C4_count_once_witness :
    countReason .queryCount
      (runQueries ⟨2, 10, 10, 3, 20, false⟩ "u" "tb"
        (default_data ⟨2, 10, 10, 3, 20, false⟩ 0 none) ⟨50, 0⟩
        [⟨0, 1/10, "A", "()", 100⟩, ⟨0, 1/10, "B", "()", 100⟩,
         ⟨0, 1/10, "C", "()", 100⟩]).calls ≤ 1 ∧
    ((∃ c ∈ (runQueries ⟨2, 10, 10, 3, 20, false⟩ "u" "tb"
          (default_data ⟨2, 10, 10, 3, 20, false⟩ 0 none) ⟨50, 0⟩
          [⟨0, 1/10, "A", "()", 100⟩, ⟨0, 1/10, "B", "()", 100⟩,
           ⟨0, 1/10, "C", "()", 100⟩]).perQuery.getD 1 [],
        c.reason = DumpReason.queryCount) ↔
      (1 + 1 = (⟨2, 10, 10, 3, 20, false⟩ : Config).max_query_count ∧
       ∀ c ∈ (runQueries ⟨2, 10, 10, 3, 20, false⟩ "u" "tb"
          (default_data ⟨2, 10, 10, 3, 20, false⟩ 0 none) ⟨50, 0⟩
          [⟨0, 1/10, "A", "()", 100⟩, ⟨0, 1/10, "B", "()", 100⟩,
           ⟨0, 1/10, "C", "()", 100⟩]).perQuery.getD 1 [],
         c.reason ≠ DumpReason.totalTime ∧
         c.reason ≠ DumpReason.singleQuery)) :=
  ⟨(C4_count_once ⟨2, 10, 10, 3, 20, false⟩ 0 ⟨50, 0⟩ "u" "tb"
      [⟨0, 1/10, "A", "()", 100⟩, ⟨0, 1/10, "B", "()", 100⟩,
       ⟨0, 1/10, "C", "()", 100⟩]).1,
   (C4_count_once ⟨2, 10, 10, 3, 20, false⟩ 0 ⟨50, 0⟩ "u" "tb"
      [⟨0, 1/10, "A", "()", 100⟩, ⟨0, 1/10, "B", "()", 100⟩,
       ⟨0, 1/10, "C", "()", 100⟩]).2 1
     (by norm_num [runQueries, runQuery, after_cursor_execute,
        before_cursor_execute, maybe_dump_stack, dumpStep, default_data,
        excOf])⟩

/-- `maybe_dump_stack` when the per-request cap check trips. -/
theorem mds_suppress_request (cfg : Config) (g : GState) (gs : GlobalState)
    (t : Int) (u s f : String) (a : List String)
    (h : g.stack_dump_count > cfg.max_request_debug_stacks) :
    maybe_dump_stack cfg g gs t u s f a =
      ({ g with stack_dump_request_count := g.stack_dump_request_count + 1 },
       gs, .suppressedRequest) := by
  simp [maybe_dump_stack, h]

/-- `maybe_dump_stack` when both gates pass and `throw_exception` is off. -/
theorem mds_emit_logged (cfg : Config) (g : GState) (gs : GlobalState)
    (t : Int) (u s f : String) (a : List String)
    (hreq : ¬ g.stack_dump_count > cfg.max_request_debug_stacks)
    (hglob : ¬ (t = gs.last_stack_dump ∧
      gs.global_stack_dumps > cfg.max_global_debug_stacks))
    (hthrow : g.throw_exception = false) :
    maybe_dump_stack cfg g gs t u s f a =
      ({ g with stack_dump_request_count := g.stack_dump_request_count + 1,
                stack_dump_count := g.stack_dump_count + 1 },
       ⟨t, gs.global_stack_dumps + 1⟩,
       .logged (pyFormat ("%s\n" ++ f ++ ": stack trace: %s")
         (("url: " ++ u ++ "\n") :: a ++ [s]))) := by
  simp [maybe_dump_stack, hreq, hglob, hthrow]

/-- `emittedCount` over a cons. -/
theorem emittedCount_cons (e : Emit) (es : List Emit) :
    emittedCount (e :: es) = (if e.emitted then 1 else 0) + emittedCount es := by
  simp only [emittedCount, List.filter_cons]
  split_ifs <;> simp [Nat.add_comm]

/-- Exact outcome of `n` consecutive `maybe_dump_stack` calls in one request,
all in the same coarse second, with the global budget not binding: the
per-request `>` check lets `max_request_debug_stacks + 1` dumps through. -/
theorem callDumps_const (cfg : Config) (u s f : String) (a : List String) :
    ∀ (n : Nat) (g : GState) (gs : GlobalState) (t : Int),
      g.throw_exception = false →
      gs.last_stack_dump = t →
      g.stack_dump_count ≤ cfg.max_request_debug_stacks + 1 →
      gs.global_stack_dumps +
        (cfg.max_request_debug_stacks + 1 - g.stack_dump_count) ≤
        cfg.max_global_debug_stacks + 1 →
      emittedCount (callDumpsAt cfg u s f a g gs (List.replicate n t)).2.2 =
        min n (cfg.max_request_debug_stacks + 1 - g.stack_dump_count) ∧
      (callDumpsAt cfg u s f a g gs
        (List.replicate n t)).1.stack_dump_request_count =
        g.stack_dump_request_count + n ∧
      (callDumpsAt cfg u s f a g gs (List.replicate n t)).1.stack_dump_count =
        g.stack_dump_count +
          min n (cfg.max_request_debug_stacks + 1 - g.stack_dump_count) := by
  intro n
  induction n with
  | zero => intro g gs t _ _ _ _; simp [callDumpsAt, emittedCount]
  | succ n ih =>
    intro g gs t hthrow hlast hcle hinv
    rw [List.replicate_succ]
    by_cases hc : g.stack_dump_count > cfg.max_request_debug_stacks
    · have hc1 : g.stack_dump_count = cfg.max_request_debug_stacks + 1 := by omega
      simp only [callDumpsAt, mds_suppress_request cfg g gs t u s f a hc]
      obtain ⟨ih1, ih2, ih3⟩ := ih
        { g with stack_dump_request_count := g.stack_dump_request_count + 1 }
        gs t hthrow hlast (by simpa using hcle) (by simpa using hinv)
      simp at ih1 ih2 ih3
      rw [hc1] at ih1 ih2 ih3 ⊢
      simp only [Nat.add_sub_cancel_left, Nat.sub_self, Nat.min_zero,
        Nat.add_zero] at ih1 ih3 ⊢
      refine ⟨?_, ?_, ?_⟩
      · simpa [emittedCount, Emit.emitted] using ih1
      · omega
      · omega
    · have hgl : ¬ (t = gs.last_stack_dump ∧
          gs.global_stack_dumps > cfg.max_global_debug_stacks) := by
        intro ⟨_, hgt⟩
        omega
      have hsub : cfg.max_request_debug_stacks + 1 - g.stack_dump_count
          = (cfg.max_request_debug_stacks - g.stack_dump_count) + 1 := by omega
      simp only [callDumpsAt, mds_emit_logged cfg g gs t u s f a hc hgl hthrow]
      obtain ⟨ih1, ih2, ih3⟩ := ih
        { g with stack_dump_request_count := g.stack_dump_request_count + 1,
                 stack_dump_count := g.stack_dump_count + 1 }
        ⟨t, gs.global_stack_dumps + 1⟩ t hthrow rfl (by simp; omega)
        (by simp; omega)
      simp at ih1 ih2 ih3
      rw [hsub]
      simp only [Nat.succ_min_succ]
      generalize hm :
        min n (cfg.max_request_debug_stacks - g.stack_dump_count) = m
      rw [hm] at ih1 ih3
      clear hm
      refine ⟨?_, ?_, ?_⟩
      · rw [emittedCount_cons, ih1]
        simp [Emit.emitted]
        omega
      · omega
      · omega

/-- C5 counterexample: with the per-request cap configured to N = 1, two
qualifying `maybe_dump_stack` calls (N + k with k = 1) emit 2 dumps, not the
claimed N = 1: the guard compares `stack_dump_count` with `>` before the
increment, so N + 1 dumps slip through. -/
theorem C5_counterexample :
    emittedCount (callDumpsAt ⟨10, 1/5, 2/5, 1, 20, false⟩ "u" "tb"
      fmtQueryCount ["S", "P"]
      (default_data ⟨10, 1/5, 2/5, 1, 20, false⟩ 0 none) ⟨100, 0⟩
      (List.replicate 2 100)).2.2 = 2 ∧
    (callDumpsAt ⟨10, 1/5, 2/5, 1, 20, false⟩ "u" "tb"
      fmtQueryCount ["S", "P"]
      (default_data ⟨10, 1/5, 2/5, 1, 20, false⟩ 0 none) ⟨100, 0⟩
      (List.replicate 2 100)).1.stack_dump_request_count = 2 := by
  constructor <;>
    norm_num [callDumpsAt, maybe_dump_stack, default_data, emittedCount,
      List.replicate, Emit.emitted]

/-- C5 (amended): with the per-request cap configured to N, a sequence of
N + k (k > 0) `maybe_dump_stack` calls within one request (same coarse
second, fresh global counter, N within the global budget, log mode) emits
exactly N + 1 dumps — one more than the configured cap, because the check
uses `>` on the pre-increment count — and leaves
`stack_dump_request_count = N + k`. -/
theorem C5_request_cap (cfg : Config) (t0 : ℚ) (t : Int) (k : Nat)
    (hk : 0 < k) (url st fmt : String) (args : List String)
    (hthrow : cfg.throw_exception_cfg = false)
    (hNM : cfg.max_request_debug_stacks ≤ cfg.max_global_debug_stacks) :
    emittedCount (callDumpsAt cfg url st fmt args (default_data cfg t0 none)
      ⟨t, 0⟩ (List.replicate (cfg.max_request_debug_stacks + k) t)).2.2 =
      cfg.max_request_debug_stacks + 1 ∧
    (callDumpsAt cfg url st fmt args (default_data cfg t0 none) ⟨t, 0⟩
      (List.replicate (cfg.max_request_debug_stacks + k)
        t)).1.stack_dump_request_count =
      cfg.max_request_debug_stacks + k := by
  obtain ⟨h1, h2, h3⟩ := callDumps_const cfg url st fmt args
    (cfg.max_request_debug_stacks + k) (default_data cfg t0 none) ⟨t, 0⟩ t
    (by simp [default_data, hthrow]) rfl
    (Nat.zero_le _) (by simp [default_data]; omega)
  refine ⟨?_, ?_⟩
  · rw [h1]
    have h0 : (default_data cfg t0 none).stack_dump_count = 0 := rfl
    rw [h0, Nat.sub_zero, Nat.min_eq_right (by omega)]
  · rw [h2]
    have h0 : (default_data cfg t0 none).stack_dump_request_count = 0 := rfl
    rw [h0, Nat.zero_add]

/-- Witness for the amended C5: cap N = 1, three calls, two dumps emitted,
three requested. -/
theorem C5_request_cap_witness :
    emittedCount (callDumpsAt ⟨10, 1/5, 2/5, 1, 20, false⟩ "u" "tb" "f" []
      (default_data ⟨10, 1/5, 2/5, 1, 20, false⟩ 0 none) ⟨100, 0⟩
      (List.replicate
        ((⟨10, 1/5, 2/5, 1, 20, false⟩ : Config).max_request_debug_stacks + 2)
        100)).2.2 =
      (⟨10, 1/5, 2/5, 1, 20, false⟩ : Config).max_request_debug_stacks + 1 ∧
    (callDumpsAt ⟨10, 1/5, 2/5, 1, 20, false⟩ "u" "tb" "f" []
      (default_data ⟨10, 1/5, 2/5, 1, 20, false⟩ 0 none) ⟨100, 0⟩
      (List.replicate
        ((⟨10, 1/5, 2/5, 1, 20, false⟩ : Config).max_request_debug_stacks + 2)
        100)).1.stack_dump_request_count =
      (⟨10, 1/5, 2/5, 1, 20, false⟩ : Config).max_request_debug_stacks + 2 :=
  C5_request_cap ⟨10, 1/5, 2/5, 1, 20, false⟩ 0 100 2 (by norm_num)
    "u" "tb" "f" [] rfl (by norm_num)

/-- C6 (code bug demo): `global_stack_dumps` is never reset to 0.  With the
global cap M = 1 and five calls at coarse seconds 10,10,10,11,11, the code
emits dumps 1, 2 and 4 only: once the counter has passed M it allows just
one dump per later second (the `curtime == last_stack_dump` test fails once
at each second change) instead of resetting the counter and resuming in
full, and the counter ends at 3, not 0. -/
theorem C6_no_reset :
    (callDumpsAt ⟨10, 1/5, 2/5, 100, 1, false⟩ "u" "tb" "f" []
      (default_data ⟨10, 1/5, 2/5, 100, 1, false⟩ 0 none) ⟨10, 0⟩
      [10, 10, 10, 11, 11]).2.2.map Emit.emitted =
      [true, true, false, true, false] ∧
    (callDumpsAt ⟨10, 1/5, 2/5, 100, 1, false⟩ "u" "tb" "f" []
      (default_data ⟨10, 1/5, 2/5, 100, 1, false⟩ 0 none) ⟨10, 0⟩
      [10, 10, 10, 11, 11]).2.1.global_stack_dumps = 3 := by
  constructor <;>
    norm_num [callDumpsAt, maybe_dump_stack, default_data, Emit.emitted]

/-- C7 (code bug demo): in throw mode the string that held
`"url: " + request.url` is overwritten by `fmt % args` before the raise, so
the raised message carries the statement but NOT the request URL; with
`throw_exception` false the same violation only produces a log record and
raises nothing. -/
theorem C7_url_dropped :
    (maybe_dump_stack ⟨10, 1/5, 2/5, 3, 20, true⟩
      (default_data ⟨10, 1/5, 2/5, 3, 20, true⟩ 0 none) ⟨50, 0⟩ 100
      "http://example.com/page" "TB" fmtSingleQuery ["SELECT slow", "()"]).2.2 =
      .raised "Total query time exceeded for multiple queries, last query: SELECT slow, params ()" ∧
    strContains
      "Total query time exceeded for multiple queries, last query: SELECT slow, params ()"
      "http://example.com/page" = false ∧
    strContains
      "Total query time exceeded for multiple queries, last query: SELECT slow, params ()"
      "SELECT slow" = true ∧
    (maybe_dump_stack ⟨10, 1/5, 2/5, 3, 20, false⟩
      (default_data ⟨10, 1/5, 2/5, 3, 20, false⟩ 0 none) ⟨50, 0⟩ 100
      "http://example.com/page" "TB" fmtSingleQuery
      ["SELECT slow", "()"]).2.2.isRaised = false := by
  refine ⟨?_, by decide, by decide, ?_⟩
  · norm_num [maybe_dump_stack, default_data, fmtSingleQuery, pyFormat,
      pyFormatAux]
  · norm_num [maybe_dump_stack, default_data, Emit.isRaised]

/-- C8 counterexample: `query_dump_stop` on a scope whose `dump_queries`
counter is zero leaves the counter at -1: it is NOT clamped at its prior
value and does go below zero. -/
theorem C8_counterexample :
    (query_dump_stop Config.defaults (default_data Config.defaults 0 none)
      ⟨50, 0⟩ 100 "u" "tb").1.dump_queries = -1 := by
  norm_num [query_dump_stop, maybe_dump_stack, default_data, Config.defaults]

/-- C8 (amended): `query_dump_stop` on a scope whose counter is already zero
decrements it to -1 (no clamping), routes an "unbalanced" diagnostic through
the rate-limited `maybe_dump_stack` path, and — in log mode — raises no
error to the caller. -/
theorem C8_unbalanced_exit (cfg : Config) (g : GState) (gs : GlobalState)
    (curtime : Int) (url st : String)
    (h : g.dump_queries = 0) (hthrow : g.throw_exception = false) :
    (query_dump_stop cfg g gs curtime url st).1.dump_queries = -1 ∧
    (query_dump_stop cfg g gs curtime url st).2.2.map MDSCall.reason =
      [DumpReason.unbalancedExit] ∧
    ∀ c ∈ (query_dump_stop cfg g gs curtime url st).2.2,
      c.outcome.isRaised = false := by
  have hneg : ({ g with dump_queries := g.dump_queries - 1 } : GState).dump_queries
      < 0 := by
    simp [h]
  rcases hm : maybe_dump_stack cfg { g with dump_queries := g.dump_queries - 1 }
      gs curtime url st fmtUnbalanced [] with ⟨g2, gs2, e⟩
  have hdq : g2.dump_queries = g.dump_queries - 1 := by
    have hq := mds_dump_queries_eq cfg
      { g with dump_queries := g.dump_queries - 1 } gs curtime url st
      fmtUnbalanced []
    rw [hm] at hq
    simpa using hq
  have hnr : e.isRaised = false := by
    have hq := mds_not_raised cfg
      { g with dump_queries := g.dump_queries - 1 } gs curtime url st
      fmtUnbalanced [] (by simpa using hthrow)
    rw [hm] at hq
    simpa using hq
  simp only [query_dump_stop, if_pos hneg, hm]
  refine ⟨by simp [hdq, h], by simp, ?_⟩
  intro c hc
  simp at hc
  subst hc
  exact hnr

/-- Witness for the amended C8 at the default configuration. -/
theorem C8_unbalanced_exit_witness :
    (query_dump_stop Config.defaults (default_data Config.defaults 0 none)
      ⟨60, 0⟩ 101 "w" "tc").1.dump_queries = -1 ∧
    (query_dump_stop Config.defaults (default_data Config.defaults 0 none)
      ⟨60, 0⟩ 101 "w" "tc").2.2.map MDSCall.reason =
      [DumpReason.unbalancedExit] ∧
    ∀ c ∈ (query_dump_stop Config.defaults
      (default_data Config.defaults 0 none) ⟨60, 0⟩ 101 "w" "tc").2.2,
      c.outcome.isRaised = false :=
  C8_unbalanced_exit Config.defaults (default_data Config.defaults 0 none)
    ⟨60, 0⟩ 101 "w" "tc" rfl rfl

/-- C9 (code bug demo): a query exceeding only the single-query budget gets
a dump whose format string is the total-time wording
("Total query time exceeded for multiple queries, ...") and whose arguments
are just the statement and parameters — the measured duration is not part of
the message, contrary to "labeled with the offending statement and that
query's duration". -/
theorem C9_single_label :
    (runQueries ⟨10, 1/5, 10, 3, 20, false⟩ "u" "tb"
      (default_data ⟨10, 1/5, 10, 3, 20, false⟩ 0 none) ⟨50, 0⟩
      [⟨0, 1, "SELECT slow", "()", 100⟩]).calls.map
        (fun c => (c.reason, c.fmt, c.args)) =
      [(DumpReason.singleQuery,
        "Total query time exceeded for multiple queries, last query: %s, params %s",
        ["SELECT slow", "()"])] := by
  norm_num [runQueries, runQuery, after_cursor_execute, before_cursor_execute,
    maybe_dump_stack, dumpStep, default_data, RunOut.calls, excOf,
    fmtSingleQuery]

/-- C10: the state initialised by `_default_data` for a fresh request never
contains the `"query_start_time"` key, and `_after_cursor_execute` run on a
state lacking that key fails with the missing-key error instead of
completing as a no-op. -/
theorem C10_missing_key (cfg : Config) (t0 : ℚ) :
    (default_data cfg t0 none).query_start_time = none ∧
    ∀ (g : GState) (gs : GlobalState) (now : ℚ) (curtime : Int)
      (stmt params url st : String),
      g.query_start_time = none →
      after_cursor_execute cfg g gs now curtime stmt params url st =
        .error "KeyError: query_start_time" := by
  refine ⟨rfl, fun g gs now curtime stmt params url st h => ?_⟩
  simp [after_cursor_execute, h]

/-- Witness for C10 at the default configuration and a fresh state. -/
theorem C10_missing_key_witness :
    (default_data Config.defaults 0 none).query_start_time = none ∧
    after_cursor_execute Config.defaults (default_data Config.defaults 0 none)
      ⟨50, 0⟩ 1 100 "S" "P" "u" "tb" =
      .error "KeyError: query_start_time" :=
  ⟨(C10_missing_key Config.defaults 0).1,
   (C10_missing_key Config.defaults 0).2 (default_data Config.defaults 0 none)
     ⟨50, 0⟩ 1 100 "S" "P" "u" "tb" rfl⟩
